import Mathlib

/-!
Verification of the EXIF-orientation / bounding-box rendering core of the KYC
document dashboard.

The definitions below are a shallow embedding of
`dashboard/src/components/DocumentUpload.tsx` (functions
`readExifOrientation`, `orientationToDegrees`, `loadImageBuffer`,
`getImageRotationDegrees`, the sizing and drawing arithmetic of
`BoundingBoxVisualizer`, and the highlight click handlers) together with the
`App` host component that owns the `highlightedField` state.

Byte buffers (`ArrayBuffer` viewed through a `DataView`) are embedded as
`List Nat`; every `DataView` read returns `Option Nat`, with `none` marking a
read that would fall outside the buffer.  JavaScript numbers used as byte
offsets are naturals; EXIF orientation values and rotation degrees are `Int`
(the scanner's "not found" sentinel is `-1`).  Display geometry is over `ℚ`,
an exact model of the float arithmetic of the component (all quantities the
spec tests are exactly representable).
-/

/-- Embedding of `DataView.getUint16(i, little)`: two bytes at `i`, assembled
little- or big-endian; `none` when the read would be out of bounds. -/
def getUint16 (buf : List Nat) (i : Nat) (little : Bool) : Option Nat :=
  match buf[i]?, buf[i+1]? with
  | some a, some b => some (if little then b * 256 + a else a * 256 + b)
  | _, _ => none

/-- Embedding of `DataView.getUint32(i, little)`: four bytes at `i`, assembled
little- or big-endian; `none` when the read would be out of bounds. -/
def getUint32 (buf : List Nat) (i : Nat) (little : Bool) : Option Nat :=
  match buf[i]?, buf[i+1]?, buf[i+2]?, buf[i+3]? with
  | some a, some b, some c, some d =>
    some (if little then ((d * 256 + c) * 256 + b) * 256 + a
          else ((a * 256 + b) * 256 + c) * 256 + d)
  | _, _, _, _ => none

/-- Embedding of the IFD0 entry loop of `readExifOrientation`
(`DocumentUpload.tsx` lines 503-511): starting at `tagOffset`, walk up to
`count` 12-byte directory entries; stop (`some none`) when an entry would
cross the end of the buffer, return `some (some v)` when an entry's tag id is
`0x0112` (its value `v` sits 8 bytes into the entry), and `some none` when the
entries are exhausted.  `none` marks an out-of-bounds read the code did not
guard (shown impossible below). -/
def findOrientationTag (buf : List Nat) (little : Bool) :
    Nat → Nat → Option (Option Int)
  | _, 0 => some none
  | tagOffset, count + 1 =>
    if tagOffset + 12 > buf.length then some none
    else
      match getUint16 buf tagOffset little with
      | none => none
      | some tag =>
        if tag = 0x0112 then
          match getUint16 buf (tagOffset + 8) little with
          | none => none
          | some v => some (some (v : Int))
        else findOrientationTag buf little (tagOffset + 12) count

/-- Outcome of one iteration of the marker-scanning `while` loop of
`readExifOrientation`: either the function finishes (`done r`, where
`r = some v` is a returned value, `r = some (-1)` a `break` followed by the
final `return -1`, and `r = none` an unguarded out-of-bounds read), or the
loop continues with a new offset. -/
inductive ScanStep where
  | done : Option Int → ScanStep
  | next : Nat → ScanStep
deriving DecidableEq

/-- One iteration of the `while` loop of `readExifOrientation`
(`DocumentUpload.tsx` lines 462-521), entered with scan offset `o`.  All
offset arithmetic is in terms of `o`: the marker is read at `o`, the segment
length at `o + 2`, the `"Exif"` signature at `o + 4`, the TIFF byte-order mark
at `o + 10`, the IFD0 offset at `o + 14`; the code then positions the IFD0
entry count at `o + 18 + tiffOffset` (i.e. `tiffOffset + 8` past the TIFF
header at `o + 10`) and the entries at `o + 20 + tiffOffset`.  Skipping a
non-EXIF APP1 segment continues at `o + 2 + exifLength` (the code's
`offset += exifLength - 2` from `o + 4`), and a generic sized segment at
`o + 2 + size`. -/
def scanStep (buf : List Nat) (o : Nat) : ScanStep :=
  if o + 4 > buf.length then .done (some (-1))
  else
    match getUint16 buf o false with
    | none => .done none
    | some marker =>
      if marker = 0xffe1 then
        if o + 4 > buf.length then .done (some (-1))
        else
          match getUint16 buf (o + 2) false with
          | none => .done none
          | some exifLength =>
            if o + 8 > buf.length then .done (some (-1))
            else
              match getUint32 buf (o + 4) false with
              | none => .done none
              | some sig =>
                if sig ≠ 0x45786966 then .next (o + 2 + exifLength)
                else
                  if o + 20 > buf.length then .done (some (-1))
                  else
                    match getUint16 buf (o + 10) false with
                    | none => .done none
                    | some bom =>
                      match getUint32 buf (o + 14) (bom = 0x4949) with
                      | none => .done none
                      | some tiffOffset =>
                        if o + 18 + tiffOffset + 2 > buf.length then
                          .done (some (-1))
                        else
                          match getUint16 buf (o + 18 + tiffOffset)
                              (bom = 0x4949) with
                          | none => .done none
                          | some tags =>
                            match findOrientationTag buf (bom = 0x4949)
                                (o + 20 + tiffOffset) tags with
                            | none => .done none
                            | some (some v) => .done (some v)
                            | some none => .next (o + 20 + tiffOffset)
      else if marker &&& 0xff00 ≠ 0xff00 then .done (some (-1))
      else
        if o + 4 > buf.length then .done (some (-1))
        else
          match getUint16 buf (o + 2) false with
          | none => .done none
          | some size => .next (o + 2 + size)

/-- Fuel-indexed run of the `while` loop of `readExifOrientation` from offset
`o`: the first component is the loop's result (as in `ScanStep.done`), the
second the number of iterations that continued with a new offset.  Exiting
because `o < buf.length` fails is the loop condition of line 462 and yields
the trailing `return -1`.  Fuel exhaustion yields `none`; the totality
theorems below show that fuel `buf.length` is never exhausted. -/
def scanRun (buf : List Nat) : Nat → Nat → Option Int × Nat
  | 0, o => if o < buf.length then (none, 0) else (some (-1), 0)
  | fuel + 1, o =>
    if o < buf.length then
      match scanStep buf o with
      | .done r => (r, 0)
      | .next o2 => ((scanRun buf fuel o2).1, (scanRun buf fuel o2).2 + 1)
    else (some (-1), 0)

/-- Embedding of `readExifOrientation` (`DocumentUpload.tsx` lines 453-524)
with the out-of-bounds marker still visible: `some (-1)` is the code's
"not found" return, `some v` a returned orientation value, and `none` an
out-of-bounds read (proved impossible in `scanExif_isSome`).  The entry check
is line 455: a buffer shorter than two bytes, or one whose first two bytes are
not `0xffd8`, short-circuits to `-1`. -/
def scanExif (buf : List Nat) : Option Int :=
  match getUint16 buf 0 false with
  | none => some (-1)
  | some m => if m ≠ 0xffd8 then some (-1) else (scanRun buf buf.length 2).1

/-- The value `readExifOrientation` actually returns.  `scanExif` is proved to
always be `some _`, so the `-1` default never fires. -/
def readExifOrientation (buf : List Nat) : Int :=
  (scanExif buf).getD (-1)

/-- Embedding of `orientationToDegrees` (`DocumentUpload.tsx` lines 419-430):
the switch maps 3, 6, 8 to 180, 90, 270 and everything else to 0. -/
def orientationToDegrees (orientation : Int) : Int :=
  if orientation = 3 then 180
  else if orientation = 6 then 90
  else if orientation = 8 then 270
  else 0

/-- An image source as `loadImageBuffer` distinguishes them
(`DocumentUpload.tsx` lines 526-540): a `data:` URL, whose base64 payload may
be missing (`hasBase64 = false`, no `"base64,"` marker) or fail to decode
(`decoded = none`, `atob` threw); or a remote URL, whose fetch may throw
(`threw = true`), return a non-success response (`ok = false`), or succeed
with `body`. -/
inductive ImageSource where
  | inline (hasBase64 : Bool) (decoded : Option (List Nat))
  | remote (threw : Bool) (ok : Bool) (body : List Nat)

/-- Embedding of `loadImageBuffer` + `dataUrlToArrayBuffer`
(`DocumentUpload.tsx` lines 432-451 and 526-540): every failure path — no
base64 marker, decode exception, fetch exception, non-ok response — yields
`none` (the functions return `null` instead of throwing). -/
def loadImageBuffer : ImageSource → Option (List Nat)
  | .inline hasBase64 decoded => if hasBase64 then decoded else none
  | .remote threw ok body =>
    if threw then none else if ok then some body else none

/-- Embedding of `getImageRotationDegrees` (`DocumentUpload.tsx` lines
542-549): without a buffer the rotation is 0; otherwise it is the mapped
orientation of the scanned buffer. -/
def getImageRotationDegrees (src : ImageSource) : Int :=
  match loadImageBuffer src with
  | none => 0
  | some buf => orientationToDegrees (readExifOrientation buf)

/-- Embedding of line 668, `((imageRotation % 360) + 360) % 360`, with
JavaScript's truncating `%` (`Int.tmod`). -/
def normalizeRotation (r : Int) : Int :=
  ((r.tmod 360) + 360).tmod 360

/-- Embedding of lines 669-671: the bounding box of the rotated image swaps
width and height exactly when the normalized rotation is not a multiple of
180. -/
def rotatedSize (w h : ℚ) (r : Int) : ℚ × ℚ :=
  if (normalizeRotation r).tmod 180 = 0 then (w, h) else (h, w)

/-- Display geometry derived per render (spec's DisplayTransform). -/
structure DisplayTransform where
  displayWidth : ℚ
  displayHeight : ℚ
  scaleFactor : ℚ
deriving DecidableEq

/-- Embedding of lines 673-681: fit the rotated bounding box to the container
width; if the derived height exceeds the maximum, clamp the height and derive
the width; the scale factor is `displayWidth / rotatedWidth`. -/
def computeDisplayTransform
    (rotatedWidth rotatedHeight containerWidth maxHeightPx : ℚ) :
    DisplayTransform :=
  let dh := containerWidth * (rotatedHeight / rotatedWidth)
  if dh > maxHeightPx then
    { displayWidth := maxHeightPx * (rotatedWidth / rotatedHeight)
      displayHeight := maxHeightPx
      scaleFactor := maxHeightPx * (rotatedWidth / rotatedHeight) / rotatedWidth }
  else
    { displayWidth := containerWidth
      displayHeight := dh
      scaleFactor := containerWidth / rotatedWidth }

/-- The rectangle passed to `ctx.rect` / `ctx.fillRect` for one field box. -/
structure BoxDraw where
  x : ℚ
  y : ℚ
  w : ℚ
  h : ℚ
deriving DecidableEq

/-- Embedding of lines 702-714: a field box `[x1, y1, x2, y2]` on a natural
image of size `imgW × imgH` is drawn at the centered coordinates
`(x1 - imgW / 2, y1 - imgH / 2)` with extent `(x2 - x1, y2 - y1)`. -/
def boxDrawCommand (imgW imgH x1 y1 x2 y2 : ℚ) : BoxDraw :=
  { x := x1 - imgW / 2
    y := y1 - imgH / 2
    w := x2 - x1
    h := y2 - y1 }

/-- Clockwise rotation of a point by a right-angle amount, the effect of
`ctx.rotate((rn * Math.PI) / 180)` in canvas coordinates (y pointing down)
for the rotations this component produces (multiples of 90). -/
def rotateCW (rn : Int) (p : ℚ × ℚ) : ℚ × ℚ :=
  if rn = 90 then (-p.2, p.1)
  else if rn = 180 then (-p.1, -p.2)
  else if rn = 270 then (p.2, -p.1)
  else p

/-- Embedding of the active transform of lines 692-694: a point in drawing
coordinates is scaled by `s`, rotated clockwise by the normalized rotation,
then translated by the surface center `(dw / 2, dh / 2)`. -/
def surfacePoint (dw dh : ℚ) (r : Int) (s : ℚ) (p : ℚ × ℚ) : ℚ × ℚ :=
  (dw / 2 + (rotateCW (normalizeRotation r) (s * p.1, s * p.2)).1,
   dh / 2 + (rotateCW (normalizeRotation r) (s * p.1, s * p.2)).2)

/-- Embedding of a legend-entry click: the button at `DocumentUpload.tsx`
line 795 calls `onFieldClick(field)`, and `App` (part_004 line 307) passes
`setHighlightedField` as `onFieldClick`, so the click replaces the highlight
state with `some field` regardless of the previous state. -/
def legendEntryClick (field : String) (_state : Option String) :
    Option String :=
  some field

/-- Embedding of a click on a field row of `ResultsDisplay`
(`DocumentUpload.tsx` lines 890-892 and the analogous rows): it calls
`onFieldSelect(highlightedField === field ? null : field)`, and `App`
(part_004 line 352) passes `setHighlightedField` as `onFieldSelect`, so the
click toggles: clicking the active field clears the highlight. -/
def fieldRowSelect (field : String) (state : Option String) : Option String :=
  if state = some field then none else some field

/-- State of the orientation-detection effect of `BoundingBoxVisualizer`
(`DocumentUpload.tsx` lines 634-654) together with its in-flight scans.
Each run of the effect is a generation: `gen` is the generation of the latest
effect, `tasks` associates each spawned generation with the rotation its scan
will deliver, and `rotation` is the `imageRotation` state.  A task's
`cancelled` flag is set exactly when a later effect has run, i.e. a task of
generation `g` is uncancelled iff `g = gen`. -/
structure VizState where
  gen : Nat
  tasks : List (Nat × Int)
  rotation : Int
deriving DecidableEq

/-- Events of the orientation-detection effect: `change rot` is an `imageUrl`
change (React runs the previous effect's cleanup, setting its closure's
`cancelled = true`, then runs the new effect, which spawns a scan that will
deliver `rot`); `resolve g` is the completion of generation `g`'s scan, which
applies its rotation only if its `cancelled` flag is still false. -/
inductive VizEvent where
  | change (rot : Int)
  | resolve (g : Nat)
deriving DecidableEq

/-- Transition function for the effect model: a source change starts
generation `gen + 1` (cancelling every earlier task), and a resolution applies
its task's rotation only when that task is uncancelled (`g = gen`). -/
def stepViz (s : VizState) : VizEvent → VizState
  | .change rot =>
    { gen := s.gen + 1, tasks := (s.gen + 1, rot) :: s.tasks,
      rotation := s.rotation }
  | .resolve g =>
    if g = s.gen then
      match s.tasks.lookup g with
      | some r => { gen := s.gen, tasks := s.tasks, rotation := r }
      | none => s
    else s

/-- Folds a list of events over the effect model. -/
def runViz : VizState → List VizEvent → VizState
  | s, [] => s
  | s, e :: es => runViz (stepViz s e) es

/-- A standards-conformant 38-byte JPEG: SOI, then an APP1/EXIF segment with a
little-endian TIFF header whose IFD0 offset is 8 (so IFD0 begins immediately
after the 8-byte TIFF header, at 8 bytes from the TIFF header start), holding
a single directory entry: tag 0x0112 (Orientation), type SHORT, count 1,
value 3.  The TIFF header starts at byte 12, so the format places the IFD0
entry count at byte 20, the entry at bytes 22-33, and the orientation value
at bytes 30-31. -/
def exifJpegLittleV3 : List Nat :=
  [0xFF, 0xD8,
   0xFF, 0xE1, 0x00, 0x22,
   0x45, 0x78, 0x69, 0x66, 0x00, 0x00,
   0x49, 0x49, 0x2A, 0x00, 0x08, 0x00, 0x00, 0x00,
   0x01, 0x00,
   0x12, 0x01, 0x03, 0x00, 0x01, 0x00, 0x00, 0x00, 0x03, 0x00, 0x00, 0x00,
   0x00, 0x00, 0x00, 0x00]

/-- The same buffer truncated to 24 bytes: the APP1/EXIF segment header and
TIFF header are present, but the IFD0 directory entries are cut off. -/
def exifTruncated : List Nat :=
  exifJpegLittleV3.take 24

/-- A two-byte read succeeds whenever it fits in the buffer. -/
theorem getUint16_isSome (buf : List Nat) (i : Nat) (little : Bool)
    (h : i + 2 ≤ buf.length) : (getUint16 buf i little).isSome := by
  have h1 : i < buf.length := by omega
  have h2 : i + 1 < buf.length := by omega
  unfold getUint16
  rw [List.getElem?_eq_getElem h1, List.getElem?_eq_getElem h2]
  simp

/-- A four-byte read succeeds whenever it fits in the buffer. -/
theorem getUint32_isSome (buf : List Nat) (i : Nat) (little : Bool)
    (h : i + 4 ≤ buf.length) : (getUint32 buf i little).isSome := by
  have h1 : i < buf.length := by omega
  have h2 : i + 1 < buf.length := by omega
  have h3 : i + 2 < buf.length := by omega
  have h4 : i + 3 < buf.length := by omega
  unfold getUint32
  rw [List.getElem?_eq_getElem h1, List.getElem?_eq_getElem h2,
    List.getElem?_eq_getElem h3, List.getElem?_eq_getElem h4]
  simp

/-- A failing two-byte read means the buffer ends before `i + 2`. -/
theorem getUint16_eq_none (buf : List Nat) (i : Nat) (little : Bool)
    (h : getUint16 buf i little = none) : buf.length < i + 2 := by
  by_contra hc
  have hs := getUint16_isSome buf i little (by omega)
  rw [h] at hs
  simp at hs

/-- A failing four-byte read means the buffer ends before `i + 4`. -/
theorem getUint32_eq_none (buf : List Nat) (i : Nat) (little : Bool)
    (h : getUint32 buf i little = none) : buf.length < i + 4 := by
  by_contra hc
  have hs := getUint32_isSome buf i little (by omega)
  rw [h] at hs
  simp at hs

/-- The IFD0 entry loop never reads out of bounds: every read it performs is
guarded by its `tagOffset + 12 > length` break. -/
theorem findOrientationTag_ne_none (buf : List Nat) (little : Bool)
    (count : Nat) :
    ∀ tagOffset, findOrientationTag buf little tagOffset count ≠ none := by
  induction count with
  | zero => intro t; simp [findOrientationTag]
  | succ n ih =>
    intro t
    unfold findOrientationTag
    repeat' split
    all_goals first
    | (solve | simp)
    | (rename_i heq
       exact absurd (getUint16_eq_none buf _ little heq) (by omega))
    | exact ih (t + 12)

/-- One loop iteration never reads out of bounds: each `DataView` read in the
body of the `while` loop is covered by one of the explicit bounds checks. -/
theorem scanStep_ne_done_none (buf : List Nat) (o : Nat) :
    scanStep buf o ≠ ScanStep.done none := by
  unfold scanStep
  repeat' split
  all_goals first
  | (solve | simp)
  | (rename_i heq
     exact absurd (getUint16_eq_none buf _ _ heq) (by omega))
  | (rename_i heq
     exact absurd (getUint32_eq_none buf _ _ heq) (by omega))
  | (rename_i heq
     exact absurd heq (findOrientationTag_ne_none buf _ _ _))

/-- Every iteration of the scan loop that continues advances the offset by at
least two bytes (the APP1 skip advances by `exifLength + 2`, a found EXIF
block that lacks the orientation tag by `20 + tiffOffset`, and the generic
segment skip by `size + 2`), and a continuing iteration only happens while
`o + 4 ≤ length`. -/
theorem scanStep_next_advance (buf : List Nat) (o o2 : Nat)
    (h : scanStep buf o = ScanStep.next o2) :
    o + 2 ≤ o2 ∧ o + 4 ≤ buf.length := by
  unfold scanStep at h
  repeat' split at h
  all_goals first
  | (injection h with h2
     exact ⟨by omega, by omega⟩)
  | (injection h)

/-- With fuel at least half the remaining bytes (in particular with fuel
`buf.length`), the loop neither exhausts its fuel nor reads out of bounds. -/
theorem scanRun_fst_isSome (buf : List Nat) :
    ∀ fuel o, buf.length ≤ o + 2 * fuel → ((scanRun buf fuel o).1).isSome := by
  intro fuel
  induction fuel with
  | zero =>
    intro o h
    unfold scanRun
    rw [if_neg (by omega)]
    simp
  | succ n ih =>
    intro o h
    simp only [scanRun]
    split
    · split
      · rename_i r hs
        cases r with
        | none => exact absurd hs (scanStep_ne_done_none buf o)
        | some v => simp
      · rename_i o2 hs
        have hadv := scanStep_next_advance buf o o2 hs
        dsimp only
        exact ih o2 (by omega)
    · simp

/-- Twice the number of continuing loop iterations never exceeds the number of
bytes after the starting offset. -/
theorem scanRun_count_le (buf : List Nat) :
    ∀ fuel o, 2 * (scanRun buf fuel o).2 ≤ buf.length - o := by
  intro fuel
  induction fuel with
  | zero =>
    intro o
    unfold scanRun
    split <;> simp
  | succ n ih =>
    intro o
    simp only [scanRun]
    split
    · split
      · simp
      · rename_i o2 hs
        have hadv := scanStep_next_advance buf o o2 hs
        have h2 := ih o2
        dsimp only
        omega
    · simp

/-- The scanner as a whole never reads out of bounds. -/
theorem scanExif_isSome (buf : List Nat) : (scanExif buf).isSome := by
  unfold scanExif
  split
  · simp
  · split
    · simp
    · exact scanRun_fst_isSome buf buf.length 2 (by omega)

/-- C1: the claim fails on the code and the spec is the intent.  The buffer
`exifJpegLittleV3` is a valid JPEG whose APP1/EXIF segment stores orientation
value 3 exactly where the EXIF/TIFF format prescribes: the TIFF header starts
at byte 12, its 4-byte IFD0 offset (read little-endian, per the `"II"`
byte-order mark) is 8, so IFD0 sits at byte 12 + 8 = 20, holding one 12-byte
entry whose tag id is 0x0112 and whose value slot holds 3.  The claim says
`readExifOrientation` returns 3 on it; the code returns -1, because line 494
(`offset += tiffOffset + 8`) places the IFD0 entry count at
`tiffHeader + tiffOffset + 8` instead of `tiffHeader + tiffOffset`: it reads
byte 28 (the middle of the directory entry, giving an entry count of 0)
instead of byte 20. -/
theorem readExifOrientation_misses_standard_ifd0 :
    getUint16 exifJpegLittleV3 0 false = some 0xffd8 ∧
    getUint16 exifJpegLittleV3 2 false = some 0xffe1 ∧
    getUint32 exifJpegLittleV3 6 false = some 0x45786966 ∧
    getUint16 exifJpegLittleV3 12 false = some 0x4949 ∧
    getUint32 exifJpegLittleV3 16 true = some 8 ∧
    getUint16 exifJpegLittleV3 (12 + 8) true = some 1 ∧
    getUint16 exifJpegLittleV3 (12 + 8 + 2) true = some 0x0112 ∧
    getUint16 exifJpegLittleV3 (12 + 8 + 2 + 8) true = some 3 ∧
    readExifOrientation exifJpegLittleV3 = -1 := by
  decide

/-- C3: `orientationToDegrees` maps 3 to 180, 6 to 90, 8 to 270, and every
other integer — including 1, the mirrored tags 2, 4, 5, 7, and the sentinel
-1 — to 0. -/
theorem orientationToDegrees_table :
    orientationToDegrees 3 = 180 ∧ orientationToDegrees 6 = 90 ∧
    orientationToDegrees 8 = 270 ∧
    ∀ o : Int, o ≠ 3 → o ≠ 6 → o ≠ 8 → orientationToDegrees o = 0 := by
  refine ⟨by decide, by decide, by decide, ?_⟩
  intro o h3 h6 h8
  simp [orientationToDegrees, h3, h6, h8]

/-- Witness for C3 at the concrete inputs the claim names. -/
theorem orientationToDegrees_table_witness :
    orientationToDegrees 1 = 0 ∧ orientationToDegrees 2 = 0 ∧
    orientationToDegrees 4 = 0 ∧ orientationToDegrees 5 = 0 ∧
    orientationToDegrees 7 = 0 ∧ orientationToDegrees (-1) = 0 :=
  ⟨orientationToDegrees_table.2.2.2 1 (by decide) (by decide) (by decide),
   orientationToDegrees_table.2.2.2 2 (by decide) (by decide) (by decide),
   orientationToDegrees_table.2.2.2 4 (by decide) (by decide) (by decide),
   orientationToDegrees_table.2.2.2 5 (by decide) (by decide) (by decide),
   orientationToDegrees_table.2.2.2 7 (by decide) (by decide) (by decide),
   orientationToDegrees_table.2.2.2 (-1) (by decide) (by decide) (by decide)⟩

/-- C4: for every input buffer the scan never reads outside the buffer (its
result is always `some _`, never the out-of-bounds marker); a buffer that does
not begin with the SOI marker `0xffd8` (including buffers shorter than two
bytes) yields -1; and the truncated EXIF buffer (segment header present, IFD
entries cut off) yields -1. -/
theorem readExifOrientation_inbounds_safe (buf : List Nat) :
    (scanExif buf).isSome = true ∧
    (getUint16 buf 0 false ≠ some 0xffd8 → readExifOrientation buf = -1) ∧
    readExifOrientation exifTruncated = -1 := by
  refine ⟨scanExif_isSome buf, ?_, by decide⟩
  intro h
  unfold readExifOrientation scanExif
  cases hm : getUint16 buf 0 false with
  | none => simp
  | some m =>
    rw [hm] at h
    have hm2 : m ≠ 0xffd8 := fun hc => h (by rw [hc])
    simp [hm2]

/-- Witness for C4 on a two-byte buffer that is not a JPEG. -/
theorem readExifOrientation_inbounds_safe_witness :
    getUint16 [0x00, 0x01] 0 false ≠ some 0xffd8 ∧
    readExifOrientation [0x00, 0x01] = -1 :=
  ⟨by decide, (readExifOrientation_inbounds_safe [0x00, 0x01]).2.1 (by decide)⟩

/-- C10: every continuing iteration of the marker-scanning loop advances the
offset by at least 2 (the non-EXIF APP1 skip advances by `exifLength + 2` and
the generic segment skip by `size + 2`), so the loop runs at most
`byteLength / 2` iterations. -/
theorem readExifOrientation_loop_bounded :
    (∀ (buf : List Nat) (o o2 : Nat),
        scanStep buf o = ScanStep.next o2 → o + 2 ≤ o2) ∧
    ∀ buf : List Nat, (scanRun buf buf.length 2).2 ≤ buf.length / 2 := by
  constructor
  · intro buf o o2 h
    exact (scanStep_next_advance buf o o2 h).1
  · intro buf
    have h := scanRun_count_le buf buf.length 2
    omega

/-- Witness for C10: a generic APP0 segment of payload size 4 advances the
scan from offset 2 to offset 8. -/
theorem readExifOrientation_loop_bounded_witness :
    scanStep [0xFF, 0xD8, 0xFF, 0xE0, 0x00, 0x04, 0x00, 0x00, 0xFF, 0xD9] 2
      = ScanStep.next 8 ∧ 2 + 2 ≤ 8 :=
  ⟨by decide,
   readExifOrientation_loop_bounded.1
     [0xFF, 0xD8, 0xFF, 0xE0, 0x00, 0x04, 0x00, 0x00, 0xFF, 0xD9] 2 8
     (by decide)⟩

/-- A rotation already in `[0, 360)` is unchanged by the JavaScript
normalization `((r % 360) + 360) % 360`. -/
theorem normalizeRotation_eq_of_lt (r : Int) (h0 : 0 ≤ r) (h1 : r < 360) :
    normalizeRotation r = r := by
  unfold normalizeRotation
  have hnn : 0 ≤ r % 360 + 360 := by
    have := Int.emod_nonneg r (show (360 : Int) ≠ 0 by norm_num)
    omega
  rw [Int.tmod_eq_emod h0 (by norm_num), Int.tmod_eq_emod hnn (by norm_num)]
  omega

/-- C6: for every natural size and every rotation normalized into `[0, 360)`,
the rotated bounding box is `(w, h)` when the rotation is a multiple of 180
and `(h, w)` when it is 90 or 270. -/
theorem rotatedSize_swaps (w h : ℚ) (r : Int) (h0 : 0 ≤ r) (h1 : r < 360) :
    (r.tmod 180 = 0 → rotatedSize w h r = (w, h)) ∧
    ((r = 90 ∨ r = 270) → rotatedSize w h r = (h, w)) := by
  unfold rotatedSize
  rw [normalizeRotation_eq_of_lt r h0 h1]
  constructor
  · intro hmod
    rw [if_pos hmod]
  · rintro (rfl | rfl)
    · rw [if_neg (by decide)]
    · rw [if_neg (by decide)]

/-- Witness for C6 at rotations 90 and 180. -/
theorem rotatedSize_swaps_witness :
    rotatedSize 1000 2000 90 = (2000, 1000) ∧ rotatedSize 3 4 180 = (3, 4) :=
  ⟨(rotatedSize_swaps 1000 2000 90 (by decide) (by decide)).2 (Or.inl rfl),
   (rotatedSize_swaps 3 4 180 (by decide) (by decide)).1 (by decide)⟩

/-- C5: the compositor fits the rotated bounding box to the container width,
clamps to the maximum height when the derived height exceeds it, and uses
`scaleFactor = displayWidth / rotatedWidth`; on natural size `(1000, 2000)`,
rotation 90, container width 500 and maximum height 600 the rotated box is
`(2000, 1000)`, the derived height 250 does not exceed 600, and the scale
factor is 0.25. -/
theorem computeDisplayTransform_fits :
    (∀ rWidth rHeight cWidth mHeight : ℚ,
      (¬ cWidth * (rHeight / rWidth) > mHeight →
        computeDisplayTransform rWidth rHeight cWidth mHeight =
          ⟨cWidth, cWidth * (rHeight / rWidth), cWidth / rWidth⟩) ∧
      (cWidth * (rHeight / rWidth) > mHeight →
        computeDisplayTransform rWidth rHeight cWidth mHeight =
          ⟨mHeight * (rWidth / rHeight), mHeight,
           mHeight * (rWidth / rHeight) / rWidth⟩)) ∧
    rotatedSize 1000 2000 90 = (2000, 1000) ∧
    computeDisplayTransform 2000 1000 500 600 = ⟨500, 250, 0.25⟩ ∧
    (computeDisplayTransform 2000 1000 500 600).displayHeight ≤ 600 := by
  refine ⟨?_, ?_, ?_, ?_⟩
  · intro rWidth rHeight cWidth mHeight
    constructor
    · intro hle
      simp only [computeDisplayTransform]
      rw [if_neg hle]
    · intro hgt
      simp only [computeDisplayTransform]
      rw [if_pos hgt]
  · unfold rotatedSize
    rw [if_neg (by decide)]
  · simp only [computeDisplayTransform]
    rw [if_neg (by norm_num)]
    simp only [DisplayTransform.mk.injEq]
    norm_num
  · simp only [computeDisplayTransform]
    rw [if_neg (by norm_num)]
    norm_num

/-- Witness for C5: the unclamped branch at the claim's concrete input. -/
theorem computeDisplayTransform_fits_witness :
    computeDisplayTransform 2000 1000 500 600 =
      ⟨500, 500 * (1000 / 2000), 500 / 2000⟩ :=
  (computeDisplayTransform_fits.1 2000 1000 500 600).1 (by norm_num)

/-- C7: each field box is drawn at centered coordinates
`(x1 - W/2, y1 - H/2)` with extent `(x2 - x1, y2 - y1)`; the concrete box
`[100, 100, 300, 150]` on a 1000 x 800 image at rotation 0 and scale 1 has
its top-left corner at centered `(-400, -300)`, i.e. at absolute surface
position `(displayWidth/2 - 400, displayHeight/2 - 300)`. -/
theorem boxDrawCommand_centered :
    (∀ imgW imgH x1 y1 x2 y2 : ℚ,
      boxDrawCommand imgW imgH x1 y1 x2 y2 =
        ⟨x1 - imgW / 2, y1 - imgH / 2, x2 - x1, y2 - y1⟩) ∧
    ((boxDrawCommand 1000 800 100 100 300 150).x = -400 ∧
     (boxDrawCommand 1000 800 100 100 300 150).y = -300) ∧
    ∀ dw dh : ℚ,
      surfacePoint dw dh 0 1
        ((boxDrawCommand 1000 800 100 100 300 150).x,
         (boxDrawCommand 1000 800 100 100 300 150).y) =
        (dw / 2 - 400, dh / 2 - 300) := by
  have h0 : normalizeRotation 0 = 0 := by decide
  refine ⟨fun _ _ _ _ _ _ => rfl, ⟨by norm_num [boxDrawCommand], by norm_num [boxDrawCommand]⟩, ?_⟩
  intro dw dh
  simp only [surfacePoint, h0, rotateCW, boxDrawCommand]
  norm_num
  constructor <;> ring

/-- C8: when the image source yields no bytes — the fetch threw, the response
was non-success, or the inline data URL has no base64 payload — no error
propagates and the rotation defaults to 0. -/
theorem getImageRotationDegrees_defaults_zero :
    (∀ src : ImageSource,
      loadImageBuffer src = none → getImageRotationDegrees src = 0) ∧
    (∀ ok body, loadImageBuffer (ImageSource.remote true ok body) = none) ∧
    (∀ body, loadImageBuffer (ImageSource.remote false false body) = none) ∧
    (∀ d, loadImageBuffer (ImageSource.inline false d) = none) := by
  refine ⟨?_, fun ok body => rfl, fun body => rfl, fun d => rfl⟩
  intro src h
  simp [getImageRotationDegrees, h]

/-- Witness for C8 at a concrete failed remote fetch. -/
theorem getImageRotationDegrees_defaults_zero_witness :
    getImageRotationDegrees (ImageSource.remote false false []) = 0 :=
  getImageRotationDegrees_defaults_zero.1 (ImageSource.remote false false []) rfl

/-- C2 counterexample: clicking the legend entry of the already-highlighted
field "full_name" a second time leaves the highlight at `some "full_name"`,
not `none` — the legend path does not toggle, because `App` wires
`onFieldClick` directly to `setHighlightedField`. -/
theorem legendEntryClick_does_not_toggle :
    legendEntryClick "full_name" (legendEntryClick "full_name" none) =
      some "full_name" ∧
    some "full_name" ≠ (none : Option String) :=
  ⟨rfl, by simp⟩

/-- C2 amended: a legend-entry click always sets the highlight to the clicked
field (clicking the active entry leaves it highlighted); the toggle behavior
belongs to the extracted-data field rows, where clicking the active field
clears the highlight and clicking any other field sets it — in particular two
successive row clicks on "full_name" return the highlight to `none`. -/
theorem highlightToggle_amended :
    (∀ (f : String) (s : Option String), legendEntryClick f s = some f) ∧
    (∀ f : String, fieldRowSelect f (some f) = none) ∧
    (∀ (f : String) (s : Option String), s ≠ some f → fieldRowSelect f s = some f) ∧
    fieldRowSelect "full_name" (fieldRowSelect "full_name" none) = none := by
  refine ⟨fun _ _ => rfl, ?_, ?_, ?_⟩
  · intro f
    simp [fieldRowSelect]
  · intro f s h
    simp [fieldRowSelect, h]
  · simp [fieldRowSelect]

/-- Witness for the amended C2 at a concrete non-highlighted state. -/
theorem highlightToggle_amended_witness :
    (none : Option String) ≠ some "full_name" ∧
    fieldRowSelect "full_name" none = some "full_name" :=
  ⟨by simp, highlightToggle_amended.2.2.1 "full_name" none (by simp)⟩

/-- Running only resolution events from a state whose latest generation's task
will deliver `r`: if the latest generation resolves somewhere in the trace the
displayed rotation ends at `r`, and if it never resolves the rotation is
untouched (every other resolution is stale and discarded). -/
theorem runViz_resolves (es : List VizEvent) :
    ∀ (t : VizState) (r : Int),
      (∀ e ∈ es, ∃ g, e = VizEvent.resolve g) →
      t.tasks.lookup t.gen = some r →
      ((VizEvent.resolve t.gen ∈ es → (runViz t es).rotation = r) ∧
       (VizEvent.resolve t.gen ∉ es → (runViz t es).rotation = t.rotation)) := by
  induction es with
  | nil =>
    intro t r _ _
    exact ⟨fun h => absurd h (List.not_mem_nil _), fun _ => rfl⟩
  | cons e es ih =>
    intro t r hall hlk
    obtain ⟨g, rfl⟩ := hall e (List.mem_cons_self e es)
    have hall2 : ∀ e2 ∈ es, ∃ g2, e2 = VizEvent.resolve g2 :=
      fun e2 h2 => hall e2 (List.mem_cons_of_mem _ h2)
    by_cases hg : g = t.gen
    · subst hg
      have hstep : stepViz t (VizEvent.resolve t.gen) =
          { gen := t.gen, tasks := t.tasks, rotation := r } := by
        simp [stepViz, hlk]
      have ih2 := ih { gen := t.gen, tasks := t.tasks, rotation := r } r hall2 hlk
      constructor
      · intro _
        simp only [runViz, hstep]
        by_cases hm : VizEvent.resolve t.gen ∈ es
        · exact ih2.1 hm
        · exact ih2.2 hm
      · intro hnm
        exact absurd (List.mem_cons_self _ _) hnm
    · have hstep : stepViz t (VizEvent.resolve g) = t := by
        simp [stepViz, hg]
      have ih2 := ih t r hall2 hlk
      constructor
      · intro hm
        rcases List.mem_cons.mp hm with heq | hm2
        · injection heq with h2
          exact absurd h2.symm hg
        · simp only [runViz, hstep]
          exact ih2.1 hm2
      · intro hnm
        have hnm2 : VizEvent.resolve t.gen ∉ es :=
          fun h2 => hnm (List.mem_cons_of_mem _ h2)
        simp only [runViz, hstep]
        exact ih2.2 hnm2

/-- C9: a resolution of any generation other than the latest leaves the state
unchanged (stale completions are discarded), and after an `ImageSource`
change, any trace of scan resolutions that includes the new generation's
resolution ends with the displayed rotation equal to the new source's
rotation — never an earlier source's. -/
theorem staleScanNeverApplied :
    (∀ (s : VizState) (g : Nat), g ≠ s.gen →
        stepViz s (VizEvent.resolve g) = s) ∧
    ∀ (s : VizState) (r : Int) (es : List VizEvent),
      (∀ e ∈ es, ∃ g, e = VizEvent.resolve g) →
      VizEvent.resolve (s.gen + 1) ∈ es →
      (runViz (stepViz s (VizEvent.change r)) es).rotation = r := by
  constructor
  · intro s g h
    simp [stepViz, h]
  · intro s r es hall hm
    have hlk : (stepViz s (VizEvent.change r)).tasks.lookup
        (stepViz s (VizEvent.change r)).gen = some r := by
      simp [stepViz, List.lookup]
    exact (runViz_resolves es (stepViz s (VizEvent.change r)) r hall hlk).1 hm

/-- Witness for C9: source changed from one delivering 90 to one delivering
270 while the first scan was in flight; both scans then resolve, and the
final rotation is 270 (the stale 90 is discarded). -/
theorem staleScanNeverApplied_witness :
    (runViz (stepViz (stepViz ⟨0, [], 0⟩ (VizEvent.change 90))
        (VizEvent.change 270))
        [VizEvent.resolve 1, VizEvent.resolve 2]).rotation = 270 :=
  staleScanNeverApplied.2 (stepViz ⟨0, [], 0⟩ (VizEvent.change 90)) 270
    [VizEvent.resolve 1, VizEvent.resolve 2]
    (by
      intro e he
      rcases List.mem_cons.mp he with rfl | he2
      · exact ⟨1, rfl⟩
      · rcases List.mem_cons.mp he2 with rfl | he3
        · exact ⟨2, rfl⟩
        · exact absurd he3 (List.not_mem_nil _))
    (by decide)
